import Mathlib

/-!
Verification of the credential-vault and OAuth2 token-lifecycle subsystem of
the tiktok-affiliate repository. The Python sources embedded here are
src/eldoore1.1.py (main variant), src/TTKv1.py and src/tiktok_kit_cli.py.
External collaborators (the Fernet cipher from the cryptography package, the
json module of the Python standard library, the requests HTTP client and the
TikTok token endpoint) are modelled as explicit parameters together with the
contracts the code relies on; everything else is translated directly from the
source files.
-/

/-! ## Python dict operations

The vault document is a Python dict. These association-list operations model
dict lookup, item assignment (overwrite in place or append, preserving
insertion order) and the del statement (remove the binding if present), which
is exactly the observable behaviour of dicts in the source. -/

def dget {K V : Type} [DecidableEq K] : List (K × V) → K → Option V
  | [], _ => none
  | (k', v) :: t, k => if k' = k then some v else dget t k

def dset {K V : Type} [DecidableEq K] : List (K × V) → K → V → List (K × V)
  | [], k, v => [(k, v)]
  | (k', v') :: t, k, v => if k' = k then (k, v) :: t else (k', v') :: dset t k v

def ddel {K V : Type} [DecidableEq K] : List (K × V) → K → List (K × V)
  | [], _ => []
  | (k', v') :: t, k => if k' = k then t else (k', v') :: ddel t k

/-! ## JSON values

Model of the JSON values produced by json.loads and consumed by json.dumps.
Numbers are modelled as integers, which covers every number the vault code
stores. -/

inductive Json where
  | null
  | bool (b : Bool)
  | num (n : Int)
  | str (s : String)
  | arr (elems : List Json)
  | obj (fields : List (String × Json))

/-- Lookup of a key in a JSON object; any non-object has no keys. -/
def Json.lookup : Json → String → Option Json
  | .obj fields, k => dget fields k
  | _, _ => none

/-! ## Storage layer of src/eldoore1.1.py

encrypt_data (lines 119-129) and load_data (lines 131-142). The external
pieces are passed as parameters: dumps models json.dumps (none when it
raises, that is when the document is not JSON-serializable), enc models
fernet.encrypt (none when it raises), writeOk models whether the open, write
and chmod calls succeed, dec models fernet.decrypt under the currently active
key (none when it raises, for instance on garbage ciphertext or ciphertext
produced under a rotated key), and loads models json.loads (none when the
plaintext is not valid JSON). The vault file is an Option String: none when
os.path.exists is false, otherwise the stored ciphertext. -/

/-- Result of encrypt_data: either the new vault-file ciphertext, or process
termination, because the except clause of encrypt_data calls sys.exit(1). -/
inductive SaveResult where
  | written (file : String)
  | exited (code : Nat)

namespace eldoore

/-- The fresh empty document of eldoore1.1.py load_data (lines 141-142). -/
def fresh_doc : Json :=
  .obj [("users", .obj []), ("analyses", .arr []), ("creds", .obj []),
        ("current_user", .null)]

/-- encrypt_data of eldoore1.1.py (lines 119-129): json.dumps, then
fernet.encrypt, then write and chmod of the vault file; any exception in
those steps is caught by the except clause, which prints and calls
sys.exit(1). -/
def encrypt_data (dumps : Json → Option String) (enc : String → Option String)
    (writeOk : Bool) (doc : Json) : SaveResult :=
  match dumps doc with
  | none => .exited 1
  | some js =>
    match enc js with
    | none => .exited 1
    | some ct => if writeOk then .written ct else .exited 1

/-- load_data of eldoore1.1.py (lines 131-142): if the vault file is absent
the fresh empty document is returned; otherwise the ciphertext is decrypted
and parsed inside a try block whose except clause returns the fresh empty
document. A successfully decrypted and parsed value is returned as is, with
no check that it has the shape of a vault document. The function is total:
no exception escapes to the caller. -/
def load_data (loads : String → Option Json) (dec : String → Option String)
    (file : Option String) : Json :=
  match file with
  | none => fresh_doc
  | some ct =>
    match dec ct with
    | none => fresh_doc
    | some pt =>
      match loads pt with
      | none => fresh_doc
      | some j => j

end eldoore

/-! ## Storage layer of src/TTKv1.py and src/tiktok_kit_cli.py

Both files share one load_data (TTKv1.py lines 88-97, tiktok_kit_cli.py
lines 87-96): a missing file yields a default document containing users,
analyses and payments keys, while a failure of fernet.decrypt or json.loads
inside the try block yields the bare empty dict. -/

namespace TTKv1

/-- The missing-file default of TTKv1.py load_data (line 97). -/
def fresh_doc : Json :=
  .obj [("users", .obj []), ("analyses", .arr []), ("payments", .obj [])]

/-- load_data of TTKv1.py (lines 88-97). On a decrypt or parse failure the
except clause returns the empty dict, which has no users, creds or
current_user key at all. The function is total. -/
def load_data (loads : String → Option Json) (dec : String → Option String)
    (file : Option String) : Json :=
  match file with
  | none => fresh_doc
  | some ct =>
    match dec ct with
    | none => .obj []
    | some pt =>
      match loads pt with
      | none => .obj []
      | some j => j

end TTKv1

namespace tiktok_kit_cli

/-- load_data of tiktok_kit_cli.py (lines 87-96), identical to the TTKv1.py
variant: empty dict on decrypt or parse failure, users/analyses/payments
default on a missing file. -/
def load_data (loads : String → Option Json) (dec : String → Option String)
    (file : Option String) : Json :=
  match file with
  | none => TTKv1.fresh_doc
  | some ct =>
    match dec ct with
    | none => .obj []
    | some pt =>
      match loads pt with
      | none => .obj []
      | some j => j

end tiktok_kit_cli

/-! ## Typed vault-document model

The operational code of eldoore1.1.py manipulates the loaded document as a
dict with fields users, analyses, creds and current_user. Session entries in
users are the per-user dicts built by tiktok_oauth_login (lines 465-471) and
updated by refresh_token_if_needed (lines 170-172). Timestamps are modelled
as integers representing the parsed instants of the ISO strings the code
stores; datetime.now() is the parameter now. The users dict is keyed by an
Option String because refresh_token_if_needed indexes users with
data["current_user"], which can be the Python value None. -/

/-- Python truthiness of an optional string (None and the empty string are
falsy), as used by `if not access_token`, `if refresh_token` and
`if access_token`. -/
def truthy : Option String → Bool
  | none => false
  | some s => !(s == "")

/-- A per-user session entry of the vault (eldoore1.1.py lines 465-471). -/
structure UserData where
  tiktok_access_token : Option String
  refresh_token : Option String
  expires_at : Option Int
  tier : String
  login_time : Int
deriving DecidableEq

/-- The loaded vault document as manipulated by the eldoore1.1.py code. The
analyses list only ever receives appended entries that no claim concerns, so
its entries are modelled by their summary strings. -/
structure VaultDoc where
  users : List (Option String × UserData)
  analyses : List String
  creds : List (String × String)
  current_user : Option String
deriving DecidableEq

/-- The invariant of the spec data model: whenever current_user is set to a
username, an entry for that username exists in users. -/
def vault_inv (d : VaultDoc) : Bool :=
  match d.current_user with
  | none => true
  | some u => (dget d.users (some u)).isSome

/-- The empty vault document in the typed model. -/
def empty_vault : VaultDoc :=
  { users := [], analyses := [], creds := [], current_user := none }

/-- One response of the TikTok token endpoint as observed through
requests.post followed by raise_for_status and resp.json (eldoore1.1.py
lines 167-169 and 459-461): either a JSON body whose fields are read with
dict get (a null refresh_token in the body is modelled as an absent one,
since no code path distinguishes them), or an HTTP error status which makes
raise_for_status raise requests.HTTPError, or a network-level failure which
makes requests.post raise requests.RequestException. -/
inductive TokenResp where
  | body (a_tok : Option String) (r_tok : Option String) (exp_in : Option Int)
  | httpErr (status : Nat)
  | netErr

namespace eldoore

/-- The exceptions of the requests library that the refresh code can raise:
requests.HTTPError from raise_for_status, or another
requests.RequestException from the post call itself. -/
inductive ReqError where
  | httpError (status : Nat)
  | netError

/-- The updated session entry written by refresh_token_if_needed on a
successful exchange (eldoore1.1.py lines 170-172): the new access token as
returned (even when absent), the new refresh token when the body carries
one, otherwise the old one, and an expiry of now plus the declared lifetime
with a default of 7200 seconds. -/
def refreshed_ud (now : Int) (ud : UserData) (a_tok r_tok : Option String)
    (exp_in : Option Int) : UserData :=
  { ud with
    tiktok_access_token := a_tok
    refresh_token :=
      match r_tok with
      | some r => some r
      | none => ud.refresh_token
    expires_at := some (now + exp_in.getD 7200) }

/-- The document passed to encrypt_data by a successful refresh
(eldoore1.1.py lines 173-175): the freshly loaded document with its users
dict overwritten at the key data["current_user"] by the updated session. -/
def refresh_saved (now : Int) (doc : VaultDoc) (ud : UserData)
    (a_tok r_tok : Option String) (exp_in : Option Int) : VaultDoc :=
  { doc with
    users := dset doc.users doc.current_user
      (refreshed_ud now ud a_tok r_tok exp_in) }

/-- The try block of refresh_token_if_needed (eldoore1.1.py lines 152-177),
before its except clauses. The parameters: now is datetime.now(), doc is the
document obtained by the load_data calls during the refresh (lines 160 and
173), ud is the user_data argument and resp is the behaviour of the token
endpoint for the single request this block can make. The result on normal
return is the returned Bool, the document passed to encrypt_data if the
block saved (none otherwise), and the number of token-endpoint requests
made; on a raise it is the exception together with the number of requests
made before raising. -/
def refresh_try (now : Int) (doc : VaultDoc) (ud : UserData) (resp : TokenResp) :
    Except (ReqError × Nat) ((Bool × Option VaultDoc) × Nat) :=
  match truthy ud.tiktok_access_token, ud.expires_at with
  | false, _ => .ok ((false, none), 0)
  | true, none => .ok ((false, none), 0)
  | true, some e =>
    if now > e then
      if truthy ud.refresh_token then
        match resp with
        | .httpErr s => .error (.httpError s, 1)
        | .netErr => .error (.netError, 1)
        | .body a_tok r_tok exp_in =>
          .ok ((true, some (refresh_saved now doc ud a_tok r_tok exp_in)), 1)
      else .ok ((true, none), 0)
    else .ok ((true, none), 0)

/-- refresh_token_if_needed of eldoore1.1.py (lines 150-183): the try block
above together with its two except clauses, which catch requests.HTTPError
and requests.RequestException and return False. Every exception the HTTP
interaction can raise is one of those two, so the function always returns
normally; a malformed expires_at string (ValueError from fromisoformat) is
outside the modelled inputs. -/
def refresh_token_if_needed (now : Int) (doc : VaultDoc) (ud : UserData)
    (resp : TokenResp) : (Bool × Option VaultDoc) × Nat :=
  match refresh_try now doc ud resp with
  | .ok r => r
  | .error (.httpError _, n) => ((false, none), n)
  | .error (.netError, n) => ((false, none), n)

/-- The wait_exponential(multiplier=1, min=4, max=10) backoff of the tenacity
decorator: the sleep before retry number n, clamped between the minimum and
the maximum. -/
def wait_exponential (minW maxW n : Nat) : Nat :=
  min maxW (max minW (2 ^ n))

/-- The tenacity retry loop: invoke the body; on a normal return stop, on a
raise sleep and retry while attempts remain, and re-raise when the final
attempt raises. Returns the final outcome, the number of attempts made and
the list of backoff sleeps performed. -/
def retryLoop {α E : Type} (wait : Nat → Nat) (body : Nat → Except E α) :
    (left made : Nat) → (sleeps : List Nat) → Except E α × Nat × List Nat
  | 0, made, sleeps => (body made, made + 1, sleeps)
  | n + 1, made, sleeps =>
    match body made with
    | .ok a => (.ok a, made + 1, sleeps)
    | .error _ => retryLoop wait body n (made + 1) (sleeps ++ [wait (made + 1)])

/-- retry(stop=stop_after_attempt(3), wait=wait_exponential(multiplier=1,
min=4, max=10)): at most three attempts. -/
def retry_stop_after_3 {α E : Type} (body : Nat → Except E α) :
    Except E α × Nat × List Nat :=
  retryLoop (wait_exponential 4 10) body 2 0 []

/-- The decorated refresh_token_if_needed as invoked by callers: the tenacity
wrapper around the function, with resps giving the token-endpoint behaviour
seen by attempt number i. The body returns Except.ok unconditionally, and
with error type Empty, because refresh_token_if_needed is total: its except
clauses catch every request exception, so tenacity never observes a raise. -/
def refresh_decorated (now : Int) (doc : VaultDoc) (ud : UserData)
    (resps : Nat → TokenResp) :
    Except Empty ((Bool × Option VaultDoc) × Nat) × Nat × List Nat :=
  retry_stop_after_3 (fun i => .ok (refresh_token_if_needed now doc ud (resps i)))

/-- Outcome of the login-completion portion of tiktok_oauth_login. -/
inductive LoginOutcome where
  | stateMismatch
  | exchangeHttpError (status : Nat)
  | exchangeNetError
  | noAccessToken
  | loggedIn (username : String)
deriving DecidableEq

/-- The login-completion portion of tiktok_oauth_login (eldoore1.1.py lines
444-475): from the state comparison of the received callback against the
generated state (which is the username, line 435) through the code exchange
to the session write. doc is the document loaded at line 421, cb_state and
cb_code are the captured callback values, resp the token-endpoint behaviour
for the exchange request. On mismatch the function prints and returns with
no write; on an exchange exception the except clauses print and return with
no write; on a falsy access_token nothing is saved; otherwise the session is
written under the username and current_user is set to it. The returned
document is the persisted state (unchanged when nothing was saved); the
encrypt_data call itself is modelled as succeeding, its failure behaviour is
treated with the storage layer. -/
def complete_login (now : Int) (doc : VaultDoc) (username : String)
    (cb_code cb_state : String) (resp : TokenResp) : LoginOutcome × VaultDoc :=
  if cb_state ≠ username then (.stateMismatch, doc)
  else
    match resp with
    | .httpErr s => (.exchangeHttpError s, doc)
    | .netErr => (.exchangeNetError, doc)
    | .body a_tok r_tok exp_in =>
      if truthy a_tok then
        let ud : UserData :=
          { tiktok_access_token := a_tok
            refresh_token := r_tok
            expires_at := some (now + exp_in.getD 7200)
            tier := "enterprise"
            login_time := now }
        (.loggedIn username,
          { doc with
            users := dset doc.users (some username) ud
            current_user := some username })
      else (.noAccessToken, doc)

/-- logout of eldoore1.1.py (lines 748-758): delete the users entry when
present and clear current_user, then save. -/
def logout (doc : VaultDoc) (username : String) : VaultDoc :=
  { doc with users := ddel doc.users (some username), current_user := none }

/-- The saving step of set_credentials (eldoore1.1.py lines 384-385):
data["creds"] = creds followed by encrypt_data; users and current_user are
untouched. -/
def set_credentials (doc : VaultDoc) (creds : List (String × String)) : VaultDoc :=
  { doc with creds := creds }

/-- The server handle of start_local_server: the auth_code and auth_state
attributes set on the TCPServer object, plus whether its listening socket is
accepting connections. -/
structure ListenerHandle where
  auth_code : Option String
  auth_state : Option String
  socket_accepting : Bool
deriving DecidableEq

/-- start_local_server of eldoore1.1.py (lines 409-417). The statement
`with socketserver.TCPServer(("", LOCAL_PORT), OAuthCallbackHandler) as
httpd:` binds the listening socket; the body sets auth_code and auth_state
to None and starts serve_forever on a daemon thread; `return httpd` then
leaves the with block, which runs TCPServer exit handling, that is
server_close(), closing the listening socket before the caller receives the
handle. -/
def start_local_server : ListenerHandle :=
  let httpd : ListenerHandle :=
    { auth_code := none, auth_state := none, socket_accepting := true }
  { httpd with socket_accepting := false }

/-- do_GET of OAuthCallbackHandler (eldoore1.1.py lines 392-407): a request
whose query carries truthy code and state parameters stores both on the
server object and is answered 200; any other request is answered 400 and
stores nothing. -/
def do_GET (h : ListenerHandle) (code state : Option String) :
    ListenerHandle × Nat :=
  if truthy code && truthy state then
    ({ h with auth_code := code, auth_state := state }, 200)
  else (h, 400)

/-- The blocking wait of tiktok_oauth_login (eldoore1.1.py lines 441-442):
`while not httpd.auth_code: time.sleep(1)`. polls i is the value of
httpd.auth_code observed at iteration i; the loop exits with the code once a
poll observes one. The loop has no timeout and no abort test, so it is given
fuel to make it a total Lean function: none means the loop was still running
after fuel iterations. -/
def wait_for_callback (polls : Nat → Option String) : Nat → Nat → Option String
  | 0, _ => none
  | fuel + 1, i =>
    match polls i with
    | some c => some c
    | none => wait_for_callback polls fuel (i + 1)

/-- Whether the wait loop, run on the observation stream polls, terminates
after some finite number of iterations. -/
def wait_terminates (polls : Nat → Option String) : Prop :=
  ∃ fuel, (wait_for_callback polls fuel 0).isSome

end eldoore

namespace TTKv1

/-- The first vault write of tiktok_oauth_login in TTKv1.py (lines 247-250):
when the loaded document has no truthy current_user, the entered username is
stored as current_user and the document is persisted immediately, before any
code exchange and before any users entry for that username exists. -/
def login_set_current_user (doc : VaultDoc) (username : String) : VaultDoc :=
  { doc with current_user := some username }

end TTKv1

/-! ## Concrete sessions and documents used by witnesses -/

/-- A session whose token is expired and whose refresh token is present. -/
def expired_ud : UserData :=
  { tiktok_access_token := some "T", refresh_token := some "R",
    expires_at := some 0, tier := "enterprise", login_time := 0 }

/-- A session whose token is expired and whose refresh token is absent. -/
def expired_no_refresh_ud : UserData :=
  { tiktok_access_token := some "T", refresh_token := none,
    expires_at := some 0, tier := "enterprise", login_time := 0 }

/-- A session whose expiry instant is still in the future at time 100. -/
def valid_ud : UserData :=
  { tiktok_access_token := some "T", refresh_token := some "R",
    expires_at := some 1000, tier := "enterprise", login_time := 0 }

/-- A vault with one session owned by alice and no current user. -/
def alice_vault : VaultDoc :=
  { users := [(some "alice", valid_ud)], analyses := [], creds := [],
    current_user := none }

/-! ## Lemmas about the dict operations -/

theorem dget_dset_self {K V : Type} [DecidableEq K] (m : List (K × V)) (k : K)
    (v : V) : dget (dset m k v) k = some v := by
  induction m with
  | nil => simp [dget, dset]
  | cons hd t ih =>
    obtain ⟨k', v'⟩ := hd
    by_cases hk : k' = k
    · simp [dset, hk, dget]
    · simp [dset, hk, dget, ih]

theorem dget_dset_ne {K V : Type} [DecidableEq K] (m : List (K × V)) (k k' : K)
    (v : V) (h : k' ≠ k) : dget (dset m k v) k' = dget m k' := by
  have hkk : ¬k = k' := fun e => h e.symm
  induction m with
  | nil => simp [dget, dset, hkk]
  | cons hd t ih =>
    obtain ⟨k₀, v₀⟩ := hd
    by_cases hk : k₀ = k
    · subst hk
      simp [dset, dget, hkk]
    · simp only [dset, if_neg hk]
      by_cases hk' : k₀ = k'
      · simp [dget, hk']
      · simp [dget, hk', ih]

/-! ## Claim theorems -/

/-- C1: in eldoore1.1.py tiktok_oauth_login, whenever the state captured by
the OAuth callback differs from the state generated for the request (the
username), completing the login yields the state-mismatch outcome and the
persisted vault document is exactly the one loaded before: no users entry is
created or overwritten and current_user is not modified. -/
theorem C1_state_mismatch_leaves_vault_unchanged
    (now : Int) (doc : VaultDoc) (username cb_code cb_state : String)
    (resp : TokenResp) (h : cb_state ≠ username) :
    eldoore.complete_login now doc username cb_code cb_state resp
      = (.stateMismatch, doc) := by
  simp [eldoore.complete_login, h]

/-- C1 witness: a concrete mismatching callback (state bob against request
state alice) is rejected and leaves the empty vault untouched. -/
theorem C1_state_mismatch_leaves_vault_unchanged_witness :
    eldoore.complete_login 0 empty_vault "alice" "CODE" "bob"
      (.body (some "T") none (some 7200)) = (.stateMismatch, empty_vault) :=
  C1_state_mismatch_leaves_vault_unchanged 0 empty_vault "alice" "CODE" "bob"
    (.body (some "T") none (some 7200)) (by decide)

/-- C2 counterexample: the load_data of TTKv1.py (also cited by the claim,
identical in tiktok_kit_cli.py) applied to a vault file whose ciphertext
fernet.decrypt rejects returns the bare empty dict, which has no users key
at all, not a fresh empty vault document with an empty users mapping. -/
theorem C2_counterexample :
    TTKv1.load_data (fun _ => none) (fun _ => none) (some "garbage")
        = Json.obj []
      ∧ Json.lookup
          (TTKv1.load_data (fun _ => none) (fun _ => none) (some "garbage"))
          "users" = none :=
  ⟨rfl, rfl⟩

/-- C2 amended: no load_data variant ever propagates an exception (each is a
total function covering every read outcome). The eldoore1.1.py variant
returns its fresh empty document on a missing file, a decryption failure or
a JSON parse failure, and returns any successfully decrypted and parsed
value unchanged, without validating its shape; the TTKv1.py and
tiktok_kit_cli.py variants return their users/analyses/payments default on a
missing file but the bare empty dict on a decryption or parse failure. -/
theorem C2_load_never_raises_and_failure_defaults
    (loads : String → Option Json) (dec : String → Option String) :
    (eldoore.load_data loads dec none = eldoore.fresh_doc)
    ∧ (∀ ct, dec ct = none →
        eldoore.load_data loads dec (some ct) = eldoore.fresh_doc)
    ∧ (∀ ct pt, dec ct = some pt → loads pt = none →
        eldoore.load_data loads dec (some ct) = eldoore.fresh_doc)
    ∧ (∀ ct pt j, dec ct = some pt → loads pt = some j →
        eldoore.load_data loads dec (some ct) = j)
    ∧ (TTKv1.load_data loads dec none = TTKv1.fresh_doc)
    ∧ (∀ ct, dec ct = none →
        TTKv1.load_data loads dec (some ct) = Json.obj [])
    ∧ (∀ ct pt, dec ct = some pt → loads pt = none →
        TTKv1.load_data loads dec (some ct) = Json.obj [])
    ∧ (tiktok_kit_cli.load_data loads dec none = TTKv1.fresh_doc)
    ∧ (∀ ct, dec ct = none →
        tiktok_kit_cli.load_data loads dec (some ct) = Json.obj [])
    ∧ (∀ ct pt, dec ct = some pt → loads pt = none →
        tiktok_kit_cli.load_data loads dec (some ct) = Json.obj []) := by
  refine ⟨rfl, ?_, ?_, ?_, rfl, ?_, ?_, rfl, ?_, ?_⟩ <;> intros <;>
    simp [eldoore.load_data, TTKv1.load_data, tiktok_kit_cli.load_data, *]

/-- C2 witness: the eldoore1.1.py load applied to a concrete undecryptable
vault file yields the fresh empty document. -/
theorem C2_load_never_raises_and_failure_defaults_witness :
    eldoore.load_data (fun _ => none) (fun _ => none) (some "ct")
      = eldoore.fresh_doc :=
  (C2_load_never_raises_and_failure_defaults (fun _ => none) (fun _ => none)).2.1
    "ct" rfl

/-- C3: for every JSON-serializable vault document D (dumps succeeds on it
and json round-trips it) saved under a key that is not rotated before the
load (decrypt inverts encrypt on the produced ciphertext), encrypt_data
writes a ciphertext from which load_data returns exactly D. -/
theorem C3_save_then_load_roundtrip
    (dumps : Json → Option String) (loads : String → Option Json)
    (enc dec : String → Option String) (D : Json) (s c : String)
    (hdump : dumps D = some s) (henc : enc s = some c)
    (hdec : dec c = some s) (hloads : loads s = some D) :
    eldoore.encrypt_data dumps enc true D = .written c
      ∧ eldoore.load_data loads dec (some c) = D := by
  constructor
  · simp [eldoore.encrypt_data, hdump, henc]
  · simp [eldoore.load_data, hdec, hloads]

/-- C3 witness: a concrete document, serializer and cipher satisfying the
round-trip contracts save and load back to the same document. -/
theorem C3_save_then_load_roundtrip_witness :
    eldoore.encrypt_data (fun _ => some "pt") (fun _ => some "ct") true
        (Json.obj []) = .written "ct"
      ∧ eldoore.load_data (fun _ => some (Json.obj [])) (fun _ => some "pt")
        (some "ct") = Json.obj [] :=
  C3_save_then_load_roundtrip (fun _ => some "pt") (fun _ => some (Json.obj []))
    (fun _ => some "ct") (fun _ => some "pt") (Json.obj []) "pt" "ct"
    rfl rfl rfl rfl

/-- C4: evidence for the retry-policy divergence. With a session whose token
is expired and refreshable and a token endpoint failing on every attempt
with a transient HTTP 503 (so three consecutive transient failures are
available), the decorated refresh makes exactly one tenacity attempt
containing exactly one token-endpoint request, performs no backoff sleep and
returns False; a network failure and a terminal HTTP 400 behave identically,
with no distinct refresh-rejected result. The wait_exponential backoff and
the two remaining attempts of stop_after_attempt(3) are never used, because
the except clauses inside refresh_token_if_needed return False before the
decorator can observe an exception. -/
theorem C4_transient_failures_make_one_attempt :
    eldoore.refresh_decorated 100 empty_vault expired_ud (fun _ => .httpErr 503)
        = (.ok ((false, none), 1), 1, [])
      ∧ eldoore.refresh_decorated 100 empty_vault expired_ud (fun _ => .netErr)
        = (.ok ((false, none), 1), 1, [])
      ∧ eldoore.refresh_decorated 100 empty_vault expired_ud (fun _ => .httpErr 400)
        = (.ok ((false, none), 1), 1, []) :=
  ⟨rfl, rfl, rfl⟩

/-- C5 counterexample: refresh_token_if_needed applied to a session whose
expiry is in the past and whose refresh token is absent returns True with no
save and no request, the very value it returns for a still-valid session, so
the call does not produce a failure result distinct from success and reports
the session as valid. -/
theorem C5_counterexample :
    eldoore.refresh_token_if_needed 100 empty_vault expired_no_refresh_ud .netErr
        = ((true, none), 0)
      ∧ eldoore.refresh_token_if_needed 100 empty_vault valid_ud .netErr
        = ((true, none), 0) :=
  ⟨rfl, rfl⟩

/-- C5 amended: for every session with a truthy access token, an expiry in
the past and no truthy refresh token, refresh_token_if_needed falls through
the refresh-token guard and returns True, the same value as for a valid
session, making no token-endpoint request and saving nothing; the code has
no distinct no-refresh-token failure. -/
theorem C5_expired_without_refresh_returns_success
    (now e : Int) (doc : VaultDoc) (ud : UserData) (resp : TokenResp)
    (hat : truthy ud.tiktok_access_token = true)
    (hexp : ud.expires_at = some e) (hpast : e < now)
    (hrt : truthy ud.refresh_token = false) :
    eldoore.refresh_token_if_needed now doc ud resp = ((true, none), 0) := by
  simp [eldoore.refresh_token_if_needed, eldoore.refresh_try, hat, hexp, hrt, hpast]

/-- C5 witness: concrete expired session with no refresh token, reported as
a success with no request made. -/
theorem C5_expired_without_refresh_returns_success_witness :
    eldoore.refresh_token_if_needed 100 empty_vault expired_no_refresh_ud .netErr
      = ((true, none), 0) :=
  C5_expired_without_refresh_returns_success 100 0 empty_vault
    expired_no_refresh_ud .netErr (by decide) rfl (by decide) (by decide)

/-- Helper: when every poll of httpd.auth_code observes None, the wait loop
of tiktok_oauth_login is still running after any number of iterations. -/
theorem wait_none_of_all_none (polls : Nat → Option String)
    (h : ∀ n, polls n = none) (fuel : Nat) :
    ∀ i, eldoore.wait_for_callback polls fuel i = none := by
  induction fuel with
  | zero => intro i; rfl
  | succ n ih => intro i; simpa [eldoore.wait_for_callback, h i] using ih (i + 1)

/-- C6 counterexample: on the execution in which no well-formed callback
ever arrives (every poll of auth_code observes None), the blocking wait of
tiktok_oauth_login does not terminate after any finite number of iterations:
the loop has no timeout and no abort test. -/
theorem C6_counterexample : ¬eldoore.wait_terminates (fun _ => none) := by
  rintro ⟨fuel, hsome⟩
  rw [wait_none_of_all_none (fun _ => none) (fun _ => rfl) fuel 0] at hsome
  exact Bool.noConfusion hsome

/-- C6 amended: the wait of tiktok_oauth_login is the bare polling loop
`while not httpd.auth_code: time.sleep(1)`: it supports no timeout and no
user abort, and on every execution in which no well-formed callback arrives
it is still running after any number of iterations, so it never stops the
listener nor returns control; it can only terminate when some poll observes
a captured authorization code. -/
theorem C6_wait_has_no_timeout (polls : Nat → Option String) (fuel i : Nat)
    (h : ∀ n, polls n = none) :
    eldoore.wait_for_callback polls fuel i = none :=
  wait_none_of_all_none polls h fuel i

/-- C6 witness: with no callback arriving, five iterations of the loop
produce no result. -/
theorem C6_wait_has_no_timeout_witness :
    eldoore.wait_for_callback (fun _ => none) 5 0 = none :=
  C6_wait_has_no_timeout (fun _ => none) 5 0 (fun _ => rfl)

/-- C7: evidence for the listener-start divergence. start_local_server
returns a handle whose listening socket is already closed and no longer
accepting: the return statement leaves the with block wrapping the
TCPServer, and the exit handling of that block runs server_close before the
caller receives the handle. -/
theorem C7_socket_closed_before_handle_returned :
    eldoore.start_local_server.socket_accepting = false
      ∧ eldoore.start_local_server.auth_code = none :=
  ⟨rfl, rfl⟩

/-- Helper: a document whose users dict is overwritten at its own
current_user key satisfies the current-user invariant. -/
theorem vault_inv_dset_current (doc : VaultDoc) (ud : UserData) :
    vault_inv { doc with users := dset doc.users doc.current_user ud } = true := by
  unfold vault_inv
  cases hcu : doc.current_user with
  | none => simp [hcu]
  | some u => simp [hcu, dget_dset_self]

/-- Helper: every document saved by refresh_token_if_needed satisfies the
current-user invariant, since the only save writes the users dict at the
current_user key itself. -/
theorem refresh_saved_doc_inv (now : Int) (doc : VaultDoc) (ud : UserData)
    (resp : TokenResp) (doc' : VaultDoc)
    (h : (eldoore.refresh_token_if_needed now doc ud resp).1.2 = some doc') :
    vault_inv doc' = true := by
  unfold eldoore.refresh_token_if_needed eldoore.refresh_try at h
  cases hat : truthy ud.tiktok_access_token <;> rw [hat] at h
  · simp at h
  · cases hexp : ud.expires_at with
    | none => rw [hexp] at h; simp at h
    | some e =>
      rw [hexp] at h
      by_cases hlt : now > e
      · by_cases hrt : truthy ud.refresh_token = true
        · cases resp with
          | httpErr s => simp [hlt, hrt] at h
          | netErr => simp [hlt, hrt] at h
          | body a_tok r_tok exp_in =>
            simp only [hlt, hrt] at h
            simp at h
            rw [← h]
            exact vault_inv_dset_current doc _
        · simp [hlt, hrt] at h
      · simp [hlt] at h

/-- C8 counterexample: the first vault write of tiktok_oauth_login in
TTKv1.py persists current_user alice on the empty vault, whose users dict
has no alice entry, so this vault-document write does not preserve the
invariant. -/
theorem C8_counterexample :
    vault_inv empty_vault = true
      ∧ vault_inv (TTKv1.login_set_current_user empty_vault "alice") = false :=
  ⟨rfl, rfl⟩

/-- C8 amended: in eldoore1.1.py the four writing operations of the claim
preserve the invariant that a set current_user has a matching users entry:
login completion in every outcome, logout, the credential update, and every
document the token refresh saves; the write at the start of the TTKv1.py
login, which sets current_user before any users entry exists, is the
exception recorded by the counterexample. -/
theorem C8_eldoore_writes_preserve_invariant
    (now : Int) (doc : VaultDoc) (username cb_code cb_state : String)
    (resp r : TokenResp) (creds : List (String × String)) (ud : UserData)
    (hinv : vault_inv doc = true) :
    vault_inv (eldoore.complete_login now doc username cb_code cb_state resp).2
        = true
      ∧ vault_inv (eldoore.logout doc username) = true
      ∧ vault_inv (eldoore.set_credentials doc creds) = true
      ∧ (∀ doc', (eldoore.refresh_token_if_needed now doc ud r).1.2 = some doc' →
          vault_inv doc' = true) := by
  refine ⟨?_, rfl, hinv, ?_⟩
  · unfold eldoore.complete_login
    split
    · exact hinv
    · split
      · exact hinv
      · exact hinv
      · split
        · simp only []
          cases hcu : doc.current_user <;> simp [vault_inv, dget_dset_self]
        · exact hinv
  · intro doc' hsave
    exact refresh_saved_doc_inv now doc ud r doc' hsave

/-- C8 witness: the preservation statements applied to the alice vault with
current_user set to alice. -/
theorem C8_eldoore_writes_preserve_invariant_witness :
    vault_inv (eldoore.logout { alice_vault with current_user := some "alice" }
      "alice") = true :=
  (C8_eldoore_writes_preserve_invariant 100
    { alice_vault with current_user := some "alice" } "alice" "CODE" "alice"
    .netErr .netErr [] expired_ud (by decide)).2.1

/-- C9 counterexample: a failure of fernet.encrypt while saving the vault
after startup terminates the process: encrypt_data reaches sys.exit(1). -/
theorem C9_counterexample :
    eldoore.encrypt_data (fun _ => some "pt") (fun _ => none) true (Json.obj [])
      = .exited 1 :=
  rfl

/-- C9 amended: a failure of json.dumps, of fernet.encrypt, or of writing
and restricting the vault file inside encrypt_data terminates the process
with exit status 1, while a fully successful save writes the ciphertext and
does not terminate; so save-time failures are an additional process-aborting
case beyond the key-file error at startup. -/
theorem C9_save_failure_terminates_process
    (dumps : Json → Option String) (enc : String → Option String)
    (writeOk : Bool) (doc : Json) :
    (dumps doc = none → eldoore.encrypt_data dumps enc writeOk doc = .exited 1)
    ∧ (∀ s, dumps doc = some s → enc s = none →
        eldoore.encrypt_data dumps enc writeOk doc = .exited 1)
    ∧ (∀ s c, dumps doc = some s → enc s = some c → writeOk = false →
        eldoore.encrypt_data dumps enc writeOk doc = .exited 1)
    ∧ (∀ s c, dumps doc = some s → enc s = some c → writeOk = true →
        eldoore.encrypt_data dumps enc writeOk doc = .written c) := by
  refine ⟨?_, ?_, ?_, ?_⟩ <;> intros <;> simp_all [eldoore.encrypt_data]

/-- C9 witness: a concrete serialization failure during save exits with
status 1. -/
theorem C9_save_failure_terminates_process_witness :
    eldoore.encrypt_data (fun _ => none) (fun _ => some "ct") true (Json.obj [])
      = .exited 1 :=
  (C9_save_failure_terminates_process (fun _ => none) (fun _ => some "ct") true
    (Json.obj [])).1 rfl

/-- C10: when the refresh performs a successful exchange it persists the
updated session under the current_user key of the loaded document, not under
the username owning the session passed in: the saved document is the loaded
one with exactly the current_user entry of users overwritten (the None key
when current_user is unset), and the entry of every other key, in particular
the actual owner whenever it differs from current_user, is unchanged. -/
theorem C10_refresh_saves_under_current_user
    (now e : Int) (doc : VaultDoc) (ud : UserData)
    (a_tok r_tok : Option String) (exp_in : Option Int)
    (hat : truthy ud.tiktok_access_token = true)
    (hexp : ud.expires_at = some e) (hpast : e < now)
    (hrt : truthy ud.refresh_token = true) :
    eldoore.refresh_token_if_needed now doc ud (.body a_tok r_tok exp_in)
        = ((true, some (eldoore.refresh_saved now doc ud a_tok r_tok exp_in)), 1)
      ∧ dget (eldoore.refresh_saved now doc ud a_tok r_tok exp_in).users
            doc.current_user
          = some (eldoore.refreshed_ud now ud a_tok r_tok exp_in)
      ∧ ∀ owner, owner ≠ doc.current_user →
          dget (eldoore.refresh_saved now doc ud a_tok r_tok exp_in).users owner
            = dget doc.users owner := by
  refine ⟨?_, dget_dset_self _ _ _, fun owner h => dget_dset_ne _ _ _ _ h⟩
  simp [eldoore.refresh_token_if_needed, eldoore.refresh_try, hat, hexp, hrt, hpast]

/-- C10 witness: a refresh of the expired session on the alice vault, whose
current_user is unset, persists the updated session under the None key and
leaves the alice entry unchanged. -/
theorem C10_refresh_saves_under_current_user_witness :
    eldoore.refresh_token_if_needed 100 alice_vault expired_ud
        (.body (some "T2") none (some 3600))
        = ((true,
            some (eldoore.refresh_saved 100 alice_vault expired_ud (some "T2")
              none (some 3600))), 1)
      ∧ dget (eldoore.refresh_saved 100 alice_vault expired_ud (some "T2") none
            (some 3600)).users alice_vault.current_user
          = some (eldoore.refreshed_ud 100 expired_ud (some "T2") none (some 3600))
      ∧ ∀ owner, owner ≠ alice_vault.current_user →
          dget (eldoore.refresh_saved 100 alice_vault expired_ud (some "T2") none
              (some 3600)).users owner
            = dget alice_vault.users owner :=
  C10_refresh_saves_under_current_user 100 0 alice_vault expired_ud
    (some "T2") none (some 3600) (by decide) rfl (by decide) (by decide)
